import Mathlib

/-!
Shallow embedding of `src/silver_gap_alert.py` (silver-alert-bot).

The script fetches two silver-ETF prices (GROWWSLVR, SILVERIETF) and a
benchmark silver price in INR per gram derived from silver futures and the
USD/INR rate, then fires a Telegram alert when the ETF-vs-ETF gap exceeds an
absolute threshold while the benchmark-normalized ratio gap stays below a
ratio threshold.  Python floats are modelled as exact rationals; network
fetches become explicit parameters; the Telegram side effect becomes a value
describing the action taken.
-/

namespace SilverGapAlert

/-- `THRESHOLD = 0.01` — absolute INR threshold for the ETF-vs-ETF difference
(line 11 of the source). -/
def THRESHOLD : ℚ := 0.01

/-- `RATIO_THRESHOLD = 0.02` — maximal allowed difference of the normalized
ratios (line 12 of the source). -/
def RATIO_THRESHOLD : ℚ := 0.02

/-- `TROY_OUNCE_G = 31.1034768` — grams in one troy ounce (line 22). -/
def TROY_OUNCE_G : ℚ := 31.1034768

/-- The observable effect of `send_telegram`: either the local echo taken when
`BOT_TOKEN` is empty (the three printed lines), or an HTTP POST to the
Telegram API with the chat id and text as payload. -/
inductive TelegramAction where
  | localEcho (header body footer : String)
  | httpPost (url chatId text : String)
  deriving DecidableEq, Repr

/-- Embedding of `send_telegram` (lines 26–39).  `botToken` and `chatId` stand
for the environment-supplied module constants.  If the token is empty the
function prints the message between two marker lines and returns; otherwise it
POSTs to `https://api.telegram.org/bot<token>/sendMessage`. -/
def send_telegram (botToken chatId text : String) : TelegramAction :=
  if botToken = "" then
    .localEcho "--- BOT_TOKEN empty: would send Telegram message below ---"
      text "--- end message ---"
  else
    .httpPost ("https://api.telegram.org/bot" ++ botToken ++ "/sendMessage")
      chatId text

/-- Outcome of the `t.fast_info.get("last_price")` attempt in `last_price`
(lines 50–54): the call either returns an optional price or raises. -/
inductive FastInfoResult where
  | ok (price : Option ℚ)
  | raises
  deriving DecidableEq, Repr

/-- The value bound to `price` after the `try/except` block of `last_price`:
an exception is flattened to `None`. -/
def fastPrice : FastInfoResult → Option ℚ
  | .ok p => p
  | .raises => none

/-- Embedding of `last_price` (lines 42–62).  `fast` is the result of the
fast-info attempt; `hist` is the `Close` column of the 1-minute history
fallback.  If the fast price is `None`, the last close is used; an empty
history raises `RuntimeError ("No data for " ++ ticker)`. -/
def last_price (ticker : String) (fast : FastInfoResult) (hist : List ℚ) :
    Except String ℚ :=
  match fastPrice fast with
  | some p => .ok p
  | none =>
    match hist.getLast? with
    | some c => .ok c
    | none => .error ("No data for " ++ ticker)

/-- Embedding of `silver_benchmark_inr_per_gm` (lines 65–74), with the two
fetched quotes (SI=F in USD/oz and USDINR) as parameters:
`(silver_usd_per_oz * usdinr) / TROY_OUNCE_G`. -/
def silver_benchmark_inr_per_gm (silver_usd_per_oz usdinr : ℚ) : ℚ :=
  (silver_usd_per_oz * usdinr) / TROY_OUNCE_G

/-- `etf_diff = groww - silver_etf` (line 81). -/
def etf_diff (groww silver_etf : ℚ) : ℚ := groww - silver_etf

/-- `ratio_diff = abs(groww/bench_gm - silver_etf/bench_gm)` (lines 87–89). -/
def ratio_diff (groww silver_etf bench_gm : ℚ) : ℚ :=
  |groww / bench_gm - silver_etf / bench_gm|

/-- The secondary-gap computation as Python executes it: dividing by a float
zero raises `ZeroDivisionError` (modelled as `none`); any nonzero benchmark —
negative included — yields the numeric `ratio_diff`. -/
def ratio_diff_checked (groww silver_etf bench_gm : ℚ) : Option ℚ :=
  if bench_gm = 0 then none
  else some (ratio_diff groww silver_etf bench_gm)

/-- The alert gate of line 109 on the two computed gaps:
`abs(etf_diff) > THRESHOLD and ratio_diff < RATIO_THRESHOLD`. -/
def alertGate (ed rd : ℚ) : Bool :=
  decide (THRESHOLD < |ed|) && decide (rd < RATIO_THRESHOLD)

/-- The alert decision of `main` as a function of the three fetched prices. -/
def alertFires (groww silver_etf bench_gm : ℚ) : Bool :=
  alertGate (etf_diff groww silver_etf) (ratio_diff groww silver_etf bench_gm)

/-- A full run of `main`'s decision, including the `ZeroDivisionError` raised
at line 87 when the benchmark is zero: `none` models the crashed run. -/
def run_main (groww silver_etf bench_gm : ℚ) : Option Bool :=
  if bench_gm = 0 then none
  else some (alertFires groww silver_etf bench_gm)

/-- The direction string of lines 110–114, as a function of `etf_diff`. -/
def direction (ed : ℚ) : String :=
  if 0 < ed then "GROWWSLVR higher than SILVERIETF"
  else "SILVERIETF higher than GROWWSLVR"

/-- One entry of the `reasons` list of lines 132–136, with the numeric values
interpolated into the printed string. -/
inductive SuppressReason where
  | etfGapNotLarge (ed threshold : ℚ)
  | sanityCheckFailed (rd threshold : ℚ)
  deriving DecidableEq, Repr

/-- The `reasons` list built in the suppressed branch (lines 132–136): the
primary reason is appended when `abs(etf_diff) <= THRESHOLD`, the secondary
one when `ratio_diff >= RATIO_THRESHOLD`. -/
def suppressReasons (ed rd : ℚ) : List SuppressReason :=
  (if |ed| ≤ THRESHOLD then [.etfGapNotLarge ed THRESHOLD] else []) ++
  (if RATIO_THRESHOLD ≤ rd then [.sanityCheckFailed rd RATIO_THRESHOLD] else [])

end SilverGapAlert

open SilverGapAlert

/-- C1: with a nonzero benchmark (a zero benchmark crashes the run before the
decision), the alert fires iff `|A - B| > THRESHOLD` and
`|A/bench - B/bench| < RATIO_THRESHOLD`; if either condition fails the run is
suppressed. -/
theorem alert_fires_iff (A B bench : ℚ) (hb : bench ≠ 0) :
    run_main A B bench = some true ↔
      THRESHOLD < |A - B| ∧ |A / bench - B / bench| < RATIO_THRESHOLD := by
  simp [run_main, alertFires, alertGate, etf_diff, ratio_diff, hb]

/-- Witness for C1: at `A = 1`, `B = 0`, `bench = 100` both conditions hold and
the alert fires. -/
theorem alert_fires_iff_witness :
    run_main 1 0 100 = some true ↔
      THRESHOLD < |(1 : ℚ) - 0| ∧
        |(1 : ℚ) / 100 - 0 / 100| < RATIO_THRESHOLD :=
  alert_fires_iff 1 0 100 (by norm_num)

/-- C2 counterexample: at the negative benchmark `-1` the secondary-gap
computation returns the numeric ratio gap `2` instead of failing — the code
has no `InvalidBenchmarkError` guard. -/
theorem negative_benchmark_returns_ratio :
    ratio_diff_checked 100 98 (-1) = some 2 := by
  unfold ratio_diff_checked ratio_diff
  rw [if_neg (by norm_num : (-1 : ℚ) ≠ 0),
    (by norm_num : (100 : ℚ) / (-1) - 98 / (-1) = -2),
    abs_of_neg (by norm_num : (-2 : ℚ) < 0)]
  norm_num

/-- C2 (amended): the secondary computation fails only at a benchmark of
exactly zero (Python's `ZeroDivisionError`); any nonzero benchmark, negative
included, yields a numeric ratio gap that flows into the alert decision. -/
theorem ratio_diff_checked_fails_iff_zero (A B bench : ℚ) :
    (ratio_diff_checked A B bench = none ↔ bench = 0) ∧
      (bench < 0 → ratio_diff_checked A B bench = some (ratio_diff A B bench)) := by
  constructor
  · unfold ratio_diff_checked
    by_cases hb : bench = 0 <;> simp [hb]
  · intro hneg
    unfold ratio_diff_checked
    rw [if_neg (ne_of_lt hneg)]

/-- Witness for C2's amended theorem at `A = 100`, `B = 98`, `bench = -1`. -/
theorem ratio_diff_checked_fails_iff_zero_witness :
    ratio_diff_checked 100 98 (-1) = some (ratio_diff 100 98 (-1)) :=
  (ratio_diff_checked_fails_iff_zero 100 98 (-1)).2 (by norm_num)

/-- C3 counterexample: with placeholder credentials the notifier issues the
HTTP POST — there is no configuration-error fast path, only the empty-token
check. -/
theorem placeholder_token_posts :
    send_telegram "YOUR_BOT_TOKEN" "YOUR_CHAT_ID" "msg" =
      .httpPost "https://api.telegram.org/botYOUR_BOT_TOKEN/sendMessage"
        "YOUR_CHAT_ID" "msg" := by
  rfl

/-- C3 (amended): for every nonempty token — placeholder or not — the notifier
attempts the Telegram HTTP POST; no validation of the token's shape happens
before the network call. -/
theorem nonempty_token_always_posts (token chatId text : String)
    (h : token ≠ "") :
    send_telegram token chatId text =
      .httpPost ("https://api.telegram.org/bot" ++ token ++ "/sendMessage")
        chatId text := by
  unfold send_telegram
  rw [if_neg h]

/-- Witness for C3's amended theorem at the placeholder token. -/
theorem nonempty_token_always_posts_witness :
    send_telegram "YOUR_BOT_TOKEN" "c" "t" =
      .httpPost ("https://api.telegram.org/bot" ++ "YOUR_BOT_TOKEN" ++ "/sendMessage")
        "c" "t" :=
  nonempty_token_always_posts "YOUR_BOT_TOKEN" "c" "t" (by decide)

/-- C4: with an empty token the notifier performs no network call and echoes
the would-be message locally between two marker lines, returning normally. -/
theorem empty_token_echoes (chatId text : String) :
    send_telegram "" chatId text =
      .localEcho "--- BOT_TOKEN empty: would send Telegram message below ---"
        text "--- end message ---" := by
  rfl

/-- C5: the benchmark resolver returns exactly
`(futures * fx) / 31.1034768` — INR per gram from USD-per-troy-ounce futures
and the USD/INR rate. -/
theorem benchmark_formula (f r : ℚ) :
    silver_benchmark_inr_per_gm f r = (f * r) / 31.1034768 := by
  rfl

/-- C6: `last_price` returns the fast-info price when available; otherwise it
returns the close of the last history bar; it errors exactly when the fast
price is unavailable and the history is empty. -/
theorem last_price_spec (ticker : String) (fast : FastInfoResult)
    (hist : List ℚ) :
    ((∃ e, last_price ticker fast hist = .error e) ↔
        fastPrice fast = none ∧ hist = []) ∧
      (∀ p, fastPrice fast = some p → last_price ticker fast hist = .ok p) ∧
      (fastPrice fast = none → ∀ c, hist.getLast? = some c →
        last_price ticker fast hist = .ok c) := by
  refine ⟨?_, ?_, ?_⟩
  · unfold last_price
    cases hfast : fastPrice fast with
    | some p => simp
    | none =>
      cases hist with
      | nil => simp
      | cons a t =>
        obtain ⟨c, hc⟩ := Option.isSome_iff_exists.mp
          (List.getLast?_isSome.mpr (List.cons_ne_nil a t))
        simp [hc]
  · intro p hp
    unfold last_price
    rw [hp]
  · intro hnone c hc
    unfold last_price
    rw [hnone, hc]

/-- Witness for C6: a raising fast-info call with history `[5]` falls back to
the last close `5`. -/
theorem last_price_spec_witness :
    last_price "GROWWSLVR.NS" .raises [5] = .ok 5 :=
  (last_price_spec "GROWWSLVR.NS" .raises [5]).2.2 rfl 5 rfl

/-- C7: with `|primary gap|` above threshold and a passing secondary gap the
gate fires; raising the secondary gap to the ratio threshold or beyond
suppresses it, and so does lowering `|primary gap|` to the ETF threshold or
below while the secondary gap still passes. -/
theorem gate_monotonic (d d' r r' : ℚ)
    (hd : THRESHOLD < |d|) (hd' : |d'| ≤ THRESHOLD)
    (hr : r < RATIO_THRESHOLD) (hr' : RATIO_THRESHOLD ≤ r') :
    alertGate d r = true ∧ alertGate d r' = false ∧ alertGate d' r = false := by
  refine ⟨?_, ?_, ?_⟩ <;> simp [alertGate]
  · exact ⟨hd, hr⟩
  · intro _
    exact hr'
  · intro h
    exact absurd h (not_lt.mpr hd')

/-- Witness for C7 at `d = 1`, `d' = 0`, `r = 0`, `r' = 1`. -/
theorem gate_monotonic_witness :
    alertGate 1 0 = true ∧ alertGate 1 1 = false ∧ alertGate 0 0 = false :=
  gate_monotonic 1 0 0 1 (by norm_num [THRESHOLD])
    (by norm_num [THRESHOLD]) (by norm_num [RATIO_THRESHOLD])
    (by norm_num [RATIO_THRESHOLD])

/-- C8: every suppressed run has a non-empty reason list, and each of the two
reasons — carrying its numeric margin — appears exactly when its condition
failed. -/
theorem suppressed_reasons (g s b : ℚ) (h : alertFires g s b = false) :
    suppressReasons (etf_diff g s) (ratio_diff g s b) ≠ [] ∧
      (SuppressReason.etfGapNotLarge (etf_diff g s) THRESHOLD ∈
          suppressReasons (etf_diff g s) (ratio_diff g s b) ↔
        |etf_diff g s| ≤ THRESHOLD) ∧
      (SuppressReason.sanityCheckFailed (ratio_diff g s b) RATIO_THRESHOLD ∈
          suppressReasons (etf_diff g s) (ratio_diff g s b) ↔
        RATIO_THRESHOLD ≤ ratio_diff g s b) := by
  simp only [alertFires, alertGate, Bool.and_eq_false_iff,
    decide_eq_false_iff_not, not_lt] at h
  refine ⟨?_, ?_, ?_⟩
  · unfold suppressReasons
    rcases h with h | h <;> simp [h]
  · unfold suppressReasons
    by_cases h1 : |etf_diff g s| ≤ THRESHOLD <;>
      by_cases h2 : RATIO_THRESHOLD ≤ ratio_diff g s b <;> simp [h1, h2]
  · unfold suppressReasons
    by_cases h1 : |etf_diff g s| ≤ THRESHOLD <;>
      by_cases h2 : RATIO_THRESHOLD ≤ ratio_diff g s b <;> simp [h1, h2]

/-- Witness for C8 at `g = s = 0`, `bench = 1`: the gap is zero, the run is
suppressed, and the primary-gap reason is listed. -/
theorem suppressed_reasons_witness :
    suppressReasons (etf_diff 0 0) (ratio_diff 0 0 1) ≠ [] ∧
      (SuppressReason.etfGapNotLarge (etf_diff 0 0) THRESHOLD ∈
          suppressReasons (etf_diff 0 0) (ratio_diff 0 0 1) ↔
        |etf_diff 0 0| ≤ THRESHOLD) ∧
      (SuppressReason.sanityCheckFailed (ratio_diff 0 0 1) RATIO_THRESHOLD ∈
          suppressReasons (etf_diff 0 0) (ratio_diff 0 0 1) ↔
        RATIO_THRESHOLD ≤ ratio_diff 0 0 1) :=
  suppressed_reasons 0 0 1
    (by norm_num [alertFires, alertGate, etf_diff, ratio_diff, THRESHOLD])

/-- C9: for a positive benchmark the secondary gap is the primary gap rescaled
by the benchmark: `ratio_diff = |A - B| / bench`, so the secondary check is
equivalent to `|A - B| < RATIO_THRESHOLD * bench`. -/
theorem ratio_diff_rescales_primary (A B bench : ℚ) (h : 0 < bench) :
    ratio_diff A B bench = |A - B| / bench ∧
      (ratio_diff A B bench < RATIO_THRESHOLD ↔
        |A - B| < RATIO_THRESHOLD * bench) := by
  have h1 : ratio_diff A B bench = |A - B| / bench := by
    unfold ratio_diff
    rw [div_sub_div_same, abs_div, abs_of_pos h]
  refine ⟨h1, ?_⟩
  rw [h1, div_lt_iff₀ h, mul_comm]

/-- Witness for C9 at `A = 3`, `B = 1`, `bench = 2`. -/
theorem ratio_diff_rescales_primary_witness :
    ratio_diff 3 1 2 = |(3 : ℚ) - 1| / 2 ∧
      (ratio_diff 3 1 2 < RATIO_THRESHOLD ↔
        |(3 : ℚ) - 1| < RATIO_THRESHOLD * 2) :=
  ratio_diff_rescales_primary 3 1 2 (by norm_num)

/-- C10: a fired alert has a nonzero primary gap (the threshold `0.01` is
positive and the comparison strict), and the direction string names GROWWSLVR
as higher exactly when `A - B > 0`. -/
theorem fired_direction (g s b : ℚ) (h : alertFires g s b = true) :
    etf_diff g s ≠ 0 ∧
      (direction (etf_diff g s) = "GROWWSLVR higher than SILVERIETF" ↔
        0 < etf_diff g s) := by
  have h1 : THRESHOLD < |etf_diff g s| := by
    simp only [alertFires, alertGate, Bool.and_eq_true, decide_eq_true_eq] at h
    exact h.1
  have hne : etf_diff g s ≠ 0 := by
    intro h0
    rw [h0, abs_zero] at h1
    exact absurd h1 (by norm_num [THRESHOLD])
  refine ⟨hne, ?_⟩
  unfold direction
  by_cases hpos : 0 < etf_diff g s
  · simp [hpos]
  · rw [if_neg hpos]
    simp only [hpos, iff_false]
    decide

/-- Witness for C10 at `g = 1`, `s = 0`, `bench = 100`: the alert fires and the
direction reads GROWWSLVR higher. -/
theorem fired_direction_witness :
    etf_diff 1 0 ≠ 0 ∧
      (direction (etf_diff 1 0) = "GROWWSLVR higher than SILVERIETF" ↔
        0 < etf_diff 1 0) :=
  fired_direction 1 0 100
    (by
      norm_num [alertFires, alertGate, etf_diff, ratio_diff, THRESHOLD,
        RATIO_THRESHOLD]
      rw [abs_of_pos (by norm_num : (0 : ℚ) < 1 / 100)]
      norm_num)
